import Mathlib

/-!
Shallow embedding of the Stellar2D resource-loading core
(`src/window/win/resource.rs`) and of the leveled logger
(`src/utils/logger.rs`), together with theorems settling the frozen
claims about them.

Modelling conventions:
* The logger sink is a list of `(Level, LogMsg)` pairs; timestamps are
  irrelevant to every claim and are omitted.  Each distinct diagnostic
  text of the source is one `LogMsg` constructor, carrying the data the
  source interpolates into the message (extension text, path, ...).
* Windows `IMAGE_FLAGS` are a `Nat` bitmask combined with `|||` exactly
  as the source combines them with `bitor`; `GDI_IMAGE_TYPE` values are
  the numeric constants of the Windows headers.
* The filesystem check `metadata(path).is_ok()` is an oracle parameter
  `fs : String → Bool`, and the platform loader (`LoadImageA`,
  `LoadIconA`, `LoadCursorA`) is an oracle `PlatformCall → Option Nat`;
  each terminal operation additionally returns the list of platform
  calls it made, so that "the loader was (not) invoked" is a statement
  about that trace.
* Rust `Path::file_name` / `Path::extension` are modelled for relative
  and drive-prefixed paths with `/` or `\` separators: the final
  non-`.`/`..` component, and its suffix after the last dot when that
  dot is not the leading character.
-/

namespace Stellar

/-- Severity level of a diagnostic line. -/
inductive Level
  | error
  | warning
  | info
deriving DecidableEq, Repr

/-- Which dimension a validator warning is about. -/
inductive DimName
  | width
  | height
deriving DecidableEq, Repr

/-- One constructor per distinct diagnostic message of the resource
builder, carrying the data interpolated into the message text. -/
inductive LogMsg
  | filenameEmpty
  | filenameNeedsTerminator (file : String)
  | noFileExtension
  | fileExtensionNotValid (ext : String)
  | fileInvalidUnicode (path : String)
  | fileDoesNotExist (path : String)
  | ocrReservedNoOp
  | nameEmpty
  | nameNeedsTerminator (name : String)
  | nameInvalid (name : String)
  | defaultSystemDim (d : DimName)
  | originalImageDim (d : DimName)
  | dibNoOp (ty : Nat)
  | monoNoOp
  | loadFailedResource
  | loadFailedIcon
  | loadFailedCursor
  | wrongVariantIcon
  | wrongVariantCursor
deriving DecidableEq, Repr

/-- `Logger` of `src/utils/logger.rs`: the `Write` sink is modelled as
the list of lines written so far. -/
structure Logger where
  output : List (Level × LogMsg)
  threshold : Nat
deriving DecidableEq, Repr

def Logger.new (output : List (Level × LogMsg)) (threshold : Nat) : Logger :=
  { output := output, threshold := threshold }

/-- `Logger::logln`: info line, written only when `threshold == 3`. -/
def Logger.logln (l : Logger) (msg : LogMsg) : Logger :=
  if l.threshold = 3 then { l with output := l.output ++ [(Level.info, msg)] } else l

/-- `Logger::wlogln`: warning line, written when `threshold >= 2`. -/
def Logger.wlogln (l : Logger) (msg : LogMsg) : Logger :=
  if 2 ≤ l.threshold then { l with output := l.output ++ [(Level.warning, msg)] } else l

/-- `Logger::elogln`: error line, written when `threshold >= 1`. -/
def Logger.elogln (l : Logger) (msg : LogMsg) : Logger :=
  if 1 ≤ l.threshold then { l with output := l.output ++ [(Level.error, msg)] } else l

/-! Windows constants used by the builder. -/

def LR_MONOCHROME : Nat := 0x1
def LR_LOADFROMFILE : Nat := 0x10
def LR_LOADTRANSPARENT : Nat := 0x20
def LR_DEFAULTSIZE : Nat := 0x40
def LR_VGACOLOR : Nat := 0x80
def LR_LOADMAP3DCOLORS : Nat := 0x1000
def LR_CREATEDIBSECTION : Nat := 0x2000
def LR_SHARED : Nat := 0x8000

def IMAGE_BITMAP : Nat := 0
def IMAGE_ICON : Nat := 1
def IMAGE_CURSOR : Nat := 2

/-- Opaque module/process handle.  `Instance::this()` is the current
process; `HINSTANCE::default()` (the null handle the source resets to
for shared system resources) is `sysDefault`; `set_instance` yields a
named module handle. -/
inductive HINSTANCE
  | thisProcess
  | sysDefault
  | named (moduleName : String)
deriving DecidableEq, Repr

/-- The identifier handed to the platform loader: either a pointer to
the original text or a small numeric id smuggled through the pointer. -/
inductive PCSTR
  | ofString (s : String)
  | ofNat (n : Nat)
  | null
deriving DecidableEq, Repr

/-- `ResourceName` of the source.  `WinIDI`/`WinIDC` hold a `PCWSTR`
system constant, modelled by its numeric pointer value. -/
inductive ResourceName
  | File (file : String)
  | WinOBM (id : Nat)
  | WinOIC (id : Nat)
  | WinOCR (id : Nat)
  | WinIDI (id : Nat)
  | WinIDC (id : Nat)
  | Name (name : String)
deriving DecidableEq, Repr

/-- A call made to the external platform loader. -/
inductive PlatformCall
  | loadImageA (inst : HINSTANCE) (name : PCSTR) (ty : Nat) (w h : Int) (flags : Nat)
  | loadIconA (inst : HINSTANCE) (name : PCSTR)
  | loadCursorA (inst : HINSTANCE) (name : PCSTR)
deriving DecidableEq, Repr

/-- Successful result of `load`: an opaque handle. -/
structure Resource where
  id : Nat
deriving DecidableEq, Repr

def Resource.new (id : Nat) : Resource := { id := id }

/-! String helpers mirroring the Rust std operations the source uses. -/

def nul : Char := Char.ofNat 0

/-- `str::ends_with` at the single character `nul`. -/
def endsWithNul (s : String) : Bool := s.data.getLast? == some nul

/-- `str::trim_end_matches` at the character `nul`. -/
def trimEndNul (s : String) : String :=
  String.mk ((s.data.reverse.dropWhile (fun c => c == nul)).reverse)

/-- `str::contains(pat)` for a literal pattern: some suffix of `s`
starts with `pat`. -/
def containsSub (s pat : String) : Bool :=
  (List.range (s.data.length + 1)).any (fun i => pat.data.isPrefixOf (s.data.drop i))

/-- `str::to_uppercase`, modelled as the character-wise ASCII
uppercase map (the recognized substrings BMP/CUR/ICO are ASCII). -/
def toUppercase (s : String) : String := String.mk (s.data.map Char.toUpper)

/-- The Unicode replacement character checked by the source. -/
def replacementChar : Char := Char.ofNat 0xFFFD

def containsReplacement (s : String) : Bool := s.data.contains replacementChar

def isSep (c : Char) : Bool := c == '/' || c == '\\'

/-- Split a character list at every separator, keeping empty pieces
(the exact behavior of `str::split` on a separator predicate). -/
def splitChars (sep : Char → Bool) : List Char → List (List Char)
  | [] => [[]]
  | c :: rest =>
    let r := splitChars sep rest
    if sep c then [] :: r
    else
      match r with
      | [] => [[c]]
      | h :: t => (c :: h) :: t

/-- Path components: split on separators, dropping empty and curdir
components. -/
def pathComponents (p : String) : List String :=
  ((splitChars isSep p.data).map String.mk).filter (fun s => !s.isEmpty && s ≠ ".")

/-- `Path::file_name`: the last component unless it is the parent-dir
component. -/
def fileNameOf (p : String) : Option String :=
  match (pathComponents p).getLast? with
  | none => none
  | some s => if s = ".." then none else some s

/-- `Path::extension` restricted to a file name: the part after the
last dot, unless there is no dot or the only dot is the leading
character. -/
def extensionOfFileName (name : String) : Option String :=
  let cs := name.data
  let after := cs.reverse.takeWhile (fun c => c ≠ '.')
  if after.length = cs.length then none
  else if after.length + 1 = cs.length then none
  else some (String.mk after.reverse)

/-- `Path::extension` of a path string. -/
def pathExtension (p : String) : Option String :=
  match fileNameOf p with
  | none => none
  | some n => extensionOfFileName n

/-- The extension dispatch of the `File` arm: `cur`/`ico`/`bmp` map to
the image type the source assigns; anything else is invalid. -/
def extKind (ext : String) : Option Nat :=
  if ext = "cur" then some IMAGE_CURSOR
  else if ext = "ico" then some IMAGE_ICON
  else if ext = "bmp" then some IMAGE_BITMAP
  else none

/-- `ResourceBuilder` state.  The source field `instance` is named
`inst` here because `instance` is a Lean keyword. -/
structure ResourceBuilder where
  flags : Nat
  resource_type : Nat
  dimensions : Int × Int
  name : ResourceName
  inst : HINSTANCE
  logger : Logger
deriving DecidableEq, Repr

/-- `ResourceBuilder::new`. -/
def ResourceBuilder.new (logger : Logger) : ResourceBuilder :=
  { logger := logger
    inst := HINSTANCE.thisProcess
    flags := 0
    resource_type := IMAGE_BITMAP
    dimensions := (0, 0)
    name := ResourceName.Name "" }

def ResourceBuilder.set_dimensions (b : ResourceBuilder) (w h : Int) : ResourceBuilder :=
  { b with dimensions := (w, h) }

def ResourceBuilder.use_sysdefault (b : ResourceBuilder) : ResourceBuilder :=
  { b with flags := b.flags ||| LR_DEFAULTSIZE }

def ResourceBuilder.use_dib (b : ResourceBuilder) : ResourceBuilder :=
  { b with flags := b.flags ||| LR_CREATEDIBSECTION }

def ResourceBuilder.use_transparent (b : ResourceBuilder) : ResourceBuilder :=
  { b with flags := b.flags ||| LR_LOADTRANSPARENT }

def ResourceBuilder.use_3d (b : ResourceBuilder) : ResourceBuilder :=
  { b with flags := b.flags ||| LR_LOADMAP3DCOLORS }

def ResourceBuilder.use_mono (b : ResourceBuilder) : ResourceBuilder :=
  { b with flags := b.flags ||| LR_MONOCHROME }

def ResourceBuilder.use_vga (b : ResourceBuilder) : ResourceBuilder :=
  { b with flags := b.flags ||| LR_VGACOLOR }

def ResourceBuilder.set_instance (b : ResourceBuilder) (moduleName : String) : ResourceBuilder :=
  { b with inst := HINSTANCE.named moduleName }

def ResourceBuilder.set_name (b : ResourceBuilder) (name : ResourceName) : ResourceBuilder :=
  { b with name := name }

/-- `ResourceBuilder::name_as_pcstr`.  `fs path` models
`metadata(path).is_ok()`.  Returns the mutated builder together with
the optional identifier. -/
def ResourceBuilder.name_as_pcstr (b : ResourceBuilder) (fs : String → Bool) :
    ResourceBuilder × Option PCSTR :=
  match b.name with
  | ResourceName.File file =>
    if file.isEmpty then
      ({ b with logger := b.logger.elogln LogMsg.filenameEmpty }, none)
    else if !endsWithNul file then
      ({ b with logger := b.logger.elogln (LogMsg.filenameNeedsTerminator file) }, none)
    else
      let path := trimEndNul file
      match pathExtension path with
      | none => ({ b with logger := b.logger.elogln LogMsg.noFileExtension }, none)
      | some ext =>
        match extKind ext with
        | none => ({ b with logger := b.logger.elogln (LogMsg.fileExtensionNotValid ext) }, none)
        | some ty =>
          let b := { b with resource_type := ty }
          if containsReplacement path then
            ({ b with logger := b.logger.elogln (LogMsg.fileInvalidUnicode path) }, none)
          else if fs path then
            (b, some (PCSTR.ofString file))
          else
            ({ b with logger := b.logger.elogln (LogMsg.fileDoesNotExist path) }, none)
  | ResourceName.WinOIC id =>
    ({ b with
        resource_type := IMAGE_ICON
        flags := b.flags ||| LR_SHARED
        inst := HINSTANCE.sysDefault }, some (PCSTR.ofNat id))
  | ResourceName.WinOCR id =>
    let b := { b with
        resource_type := IMAGE_CURSOR
        flags := b.flags ||| LR_SHARED
        inst := HINSTANCE.sysDefault }
    if id = 32641 ∨ id = 32647 ∨ id = 32640 then
      ({ b with logger := b.logger.elogln LogMsg.ocrReservedNoOp }, none)
    else
      (b, some (PCSTR.ofNat id))
  | ResourceName.WinOBM id =>
    ({ b with
        resource_type := IMAGE_BITMAP
        flags := b.flags ||| LR_SHARED
        inst := HINSTANCE.sysDefault }, some (PCSTR.ofNat id))
  | ResourceName.WinIDC id =>
    ({ b with
        resource_type := IMAGE_CURSOR
        flags := b.flags ||| LR_SHARED
        inst := HINSTANCE.sysDefault }, some (PCSTR.ofNat id))
  | ResourceName.WinIDI id =>
    ({ b with
        resource_type := IMAGE_ICON
        flags := b.flags ||| LR_SHARED
        inst := HINSTANCE.sysDefault }, some (PCSTR.ofNat id))
  | ResourceName.Name name =>
    if name.isEmpty then
      ({ b with logger := b.logger.elogln LogMsg.nameEmpty }, none)
    else if !endsWithNul name then
      ({ b with logger := b.logger.elogln (LogMsg.nameNeedsTerminator name) }, none)
    else
      let n := toUppercase name
      if containsSub n "BMP" then
        ({ b with resource_type := IMAGE_BITMAP }, some (PCSTR.ofString name))
      else if containsSub n "CUR" then
        ({ b with resource_type := IMAGE_CURSOR }, some (PCSTR.ofString name))
      else if containsSub n "ICO" then
        ({ b with resource_type := IMAGE_ICON }, some (PCSTR.ofString name))
      else
        ({ b with logger := b.logger.elogln (LogMsg.nameInvalid name) }, none)

/-- `ResourceBuilder::is_flag`. -/
def ResourceBuilder.is_flag (b : ResourceBuilder) (flag : Nat) : Bool :=
  b.flags &&& flag == flag

/-- The `check_dimensions` closure inside `ResourceBuilder::validator`. -/
def checkDimension (b : ResourceBuilder) (dimension : Int) (dimensionName : DimName) :
    ResourceBuilder :=
  if dimension = 0 then
    if b.is_flag LR_DEFAULTSIZE then
      { b with logger := b.logger.wlogln (LogMsg.defaultSystemDim dimensionName) }
    else
      { b with logger := b.logger.wlogln (LogMsg.originalImageDim dimensionName) }
  else b

/-- The `// Bitmap` block of `ResourceBuilder::validator`. -/
def checkDib (b : ResourceBuilder) : ResourceBuilder :=
  if b.is_flag LR_CREATEDIBSECTION then
    if b.resource_type = IMAGE_CURSOR then
      { b with logger := b.logger.wlogln (LogMsg.dibNoOp IMAGE_CURSOR) }
    else if b.resource_type = IMAGE_ICON then
      { b with logger := b.logger.wlogln (LogMsg.dibNoOp IMAGE_ICON) }
    else b
  else b

/-- The `// Color` block of `ResourceBuilder::validator`. -/
def checkColor (b : ResourceBuilder) : ResourceBuilder :=
  if b.is_flag LR_MONOCHROME && (b.is_flag LR_LOADMAP3DCOLORS || b.is_flag LR_VGACOLOR) then
    { b with logger := b.logger.wlogln LogMsg.monoNoOp }
  else b

/-- `ResourceBuilder::validator`: dimension checks on the width and
height captured up front, then the DIB check, then the color check. -/
def ResourceBuilder.validator (b : ResourceBuilder) : ResourceBuilder :=
  let width := b.dimensions.1
  let height := b.dimensions.2
  checkColor (checkDib (checkDimension (checkDimension b width DimName.width)
    height DimName.height))

/-- The flag forcing `load` performs before resolving: a `File` name
sets `LR_LOADFROMFILE`. -/
def ResourceBuilder.preload (b : ResourceBuilder) : ResourceBuilder :=
  match b.name with
  | ResourceName.File _ => { b with flags := b.flags ||| LR_LOADFROMFILE }
  | _ => b

/-- `ResourceBuilder::load`.  Returns the final builder, the optional
`Resource`, and the trace of platform calls made. -/
def ResourceBuilder.load (b : ResourceBuilder) (fs : String → Bool)
    (oracle : PlatformCall → Option Nat) :
    ResourceBuilder × Option Resource × List PlatformCall :=
  let b1 := b.preload
  let r := b1.name_as_pcstr fs
  match r.2 with
  | some name =>
    let b2 := r.1.validator
    let call := PlatformCall.loadImageA b2.inst name b2.resource_type
      b2.dimensions.1 b2.dimensions.2 b2.flags
    match oracle call with
    | some handle => (b2, some (Resource.new handle), [call])
    | none =>
      ({ b2 with logger := b2.logger.elogln LogMsg.loadFailedResource }, none, [call])
  | none => (r.1, none, [])

/-- `ResourceBuilder::load_icon`.  Returns the final builder, the
optional icon handle, and the trace of platform calls made. -/
def ResourceBuilder.load_icon (b : ResourceBuilder) (fs : String → Bool)
    (oracle : PlatformCall → Option Nat) :
    ResourceBuilder × Option Nat × List PlatformCall :=
  match b.name with
  | ResourceName.WinIDI _ | ResourceName.WinOIC _ =>
    let r := b.name_as_pcstr fs
    let name := r.2.getD PCSTR.null
    let call := PlatformCall.loadIconA r.1.inst name
    match oracle call with
    | some handle => (r.1, some handle, [call])
    | none =>
      ({ r.1 with logger := r.1.logger.elogln LogMsg.loadFailedIcon }, none, [call])
  | _ =>
    ({ b with logger := b.logger.elogln LogMsg.wrongVariantIcon }, none, [])

/-- `ResourceBuilder::load_cursor`. -/
def ResourceBuilder.load_cursor (b : ResourceBuilder) (fs : String → Bool)
    (oracle : PlatformCall → Option Nat) :
    ResourceBuilder × Option Nat × List PlatformCall :=
  match b.name with
  | ResourceName.WinIDC _ | ResourceName.WinOCR _ =>
    let r := b.name_as_pcstr fs
    let name := r.2.getD PCSTR.null
    let call := PlatformCall.loadCursorA r.1.inst name
    match oracle call with
    | some handle => (r.1, some handle, [call])
    | none =>
      ({ r.1 with logger := r.1.logger.elogln LogMsg.loadFailedCursor }, none, [call])
  | _ =>
    ({ b with logger := b.logger.elogln LogMsg.wrongVariantCursor }, none, [])

/-- The `ResourceName` variants accepted by `load_icon`. -/
def isIconVariantName : ResourceName → Bool
  | ResourceName.WinIDI _ => true
  | ResourceName.WinOIC _ => true
  | _ => false

/-- The `ResourceName` variants accepted by `load_cursor`. -/
def isCursorVariantName : ResourceName → Bool
  | ResourceName.WinIDC _ => true
  | ResourceName.WinOCR _ => true
  | _ => false

/-- The reserved system-cursor ids rejected by the `WinOCR` arm. -/
def reservedOCR (id : Nat) : Prop := id = 32641 ∨ id = 32647 ∨ id = 32640

instance (id : Nat) : Decidable (reservedOCR id) := by
  unfold reservedOCR
  infer_instance

/-! ## Helper lemmas -/

theorem lor_absorb_trans {x y z : Nat} (h1 : x ||| y = y) (h2 : y ||| z = z) :
    x ||| z = z := by
  calc x ||| z = x ||| (y ||| z) := by rw [h2]
    _ = (x ||| y) ||| z := by rw [Nat.or_assoc]
    _ = z := by rw [h1, h2]

theorem Logger.elogln_threshold (l : Logger) (m : LogMsg) :
    (l.elogln m).threshold = l.threshold := by
  unfold Logger.elogln
  split <;> rfl

theorem Logger.wlogln_threshold (l : Logger) (m : LogMsg) :
    (l.wlogln m).threshold = l.threshold := by
  unfold Logger.wlogln
  split <;> rfl

theorem Logger.elogln_output_of_le (l : Logger) (m : LogMsg) (h : 1 ≤ l.threshold) :
    (l.elogln m).output = l.output ++ [(Level.error, m)] := by
  unfold Logger.elogln
  rw [if_pos h]

theorem Logger.wlogln_output_of_le (l : Logger) (m : LogMsg) (h : 2 ≤ l.threshold) :
    (l.wlogln m).output = l.output ++ [(Level.warning, m)] := by
  unfold Logger.wlogln
  rw [if_pos h]

theorem Logger.elogln_output_ext (l : Logger) (m : LogMsg) :
    ∃ t, (l.elogln m).output = l.output ++ t := by
  unfold Logger.elogln
  split
  · exact ⟨[(Level.error, m)], rfl⟩
  · exact ⟨[], by simp⟩

theorem Logger.wlogln_output_ext (l : Logger) (m : LogMsg) :
    ∃ t, (l.wlogln m).output = l.output ++ t := by
  unfold Logger.wlogln
  split
  · exact ⟨[(Level.warning, m)], rfl⟩
  · exact ⟨[], by simp⟩

/-! ## Claim theorems -/

/-- C9: for every `Logger` with threshold `t`, an error line is written
precisely when `t ≥ 1` and a warning precisely when `t ≥ 2`, but an
info line is written precisely when `t = 3`; hence every threshold
greater than 3 emits warnings and errors while silently dropping info
lines. -/
theorem C9_logger_thresholds (l : Logger) (m : LogMsg) :
    ((l.elogln m).output =
      if 1 ≤ l.threshold then l.output ++ [(Level.error, m)] else l.output) ∧
    ((l.wlogln m).output =
      if 2 ≤ l.threshold then l.output ++ [(Level.warning, m)] else l.output) ∧
    ((l.logln m).output =
      if l.threshold = 3 then l.output ++ [(Level.info, m)] else l.output) ∧
    (3 < l.threshold →
      (l.logln m).output = l.output ∧
      (l.wlogln m).output = l.output ++ [(Level.warning, m)] ∧
      (l.elogln m).output = l.output ++ [(Level.error, m)]) := by
  refine ⟨?_, ?_, ?_, fun h3 => ⟨?_, ?_, ?_⟩⟩
  · simp only [Logger.elogln]
    split_ifs <;> rfl
  · simp only [Logger.wlogln]
    split_ifs <;> rfl
  · simp only [Logger.logln]
    split_ifs <;> rfl
  · simp only [Logger.logln]
    rw [if_neg (by omega)]
  · simp only [Logger.wlogln]
    rw [if_pos (by omega)]
  · simp only [Logger.elogln]
    rw [if_pos (by omega)]

theorem C9_logger_thresholds_witness :
    ((Logger.new [] 4).logln LogMsg.monoNoOp).output = [] ∧
    ((Logger.new [] 4).wlogln LogMsg.monoNoOp).output =
      [(Level.warning, LogMsg.monoNoOp)] ∧
    ((Logger.new [] 4).elogln LogMsg.monoNoOp).output =
      [(Level.error, LogMsg.monoNoOp)] := by
  have h := (C9_logger_thresholds (Logger.new [] 4) LogMsg.monoNoOp).2.2.2 (by decide)
  exact ⟨h.1, by simpa using h.2.1, by simpa using h.2.2⟩

/-- C4: resolving `WinOCR id` always first forces kind `Cursor`, the
`Shared` flag, and the system-default process handle; if `id` is one of
the reserved ids 32640, 32641, 32647 it then fails with no identifier
and exactly one logged error, otherwise it succeeds with the numeric
identifier and no diagnostic. -/
theorem C4_winocr_forcing (fs : String → Bool) (b : ResourceBuilder) (id : Nat)
    (h1 : 1 ≤ b.logger.threshold) :
    ((b.set_name (ResourceName.WinOCR id)).name_as_pcstr fs).1.resource_type = IMAGE_CURSOR ∧
    ((b.set_name (ResourceName.WinOCR id)).name_as_pcstr fs).1.flags = b.flags ||| LR_SHARED ∧
    ((b.set_name (ResourceName.WinOCR id)).name_as_pcstr fs).1.inst = HINSTANCE.sysDefault ∧
    (reservedOCR id →
      ((b.set_name (ResourceName.WinOCR id)).name_as_pcstr fs).2 = none ∧
      ((b.set_name (ResourceName.WinOCR id)).name_as_pcstr fs).1.logger.output =
        b.logger.output ++ [(Level.error, LogMsg.ocrReservedNoOp)]) ∧
    (¬ reservedOCR id →
      ((b.set_name (ResourceName.WinOCR id)).name_as_pcstr fs).2 = some (PCSTR.ofNat id) ∧
      ((b.set_name (ResourceName.WinOCR id)).name_as_pcstr fs).1.logger.output =
        b.logger.output) := by
  simp only [ResourceBuilder.name_as_pcstr, ResourceBuilder.set_name]
  split_ifs with hid
  · exact ⟨rfl, rfl, rfl,
      fun _ => ⟨rfl, Logger.elogln_output_of_le _ _ h1⟩,
      fun hn => absurd hid hn⟩
  · exact ⟨rfl, rfl, rfl, fun hr => absurd hr hid, fun _ => ⟨rfl, rfl⟩⟩

theorem C4_winocr_forcing_witness :
    (((ResourceBuilder.new (Logger.new [] 1)).set_name
        (ResourceName.WinOCR 32640)).name_as_pcstr (fun _ => false)).2 = none ∧
    (((ResourceBuilder.new (Logger.new [] 1)).set_name
        (ResourceName.WinOCR 32640)).name_as_pcstr (fun _ => false)).1.flags = LR_SHARED := by
  have h := C4_winocr_forcing (fun _ => false)
    (ResourceBuilder.new (Logger.new [] 1)) 32640 (by decide)
  exact ⟨(h.2.2.2.1 (by decide)).1, by simpa using h.2.1⟩

/-- C7: resolving `WinOBM`, `WinOIC`, `WinIDI` or `WinIDC` always
succeeds with the numeric identifier, sets the kind to Bitmap, Icon,
Icon, Cursor respectively, forces the `Shared` flag, and redirects the
process handle to the system default. -/
theorem C7_ordinal_variants (fs : String → Bool) (b : ResourceBuilder) (id : Nat) :
    (b.set_name (ResourceName.WinOBM id)).name_as_pcstr fs =
      ({ b with
          name := ResourceName.WinOBM id
          resource_type := IMAGE_BITMAP
          flags := b.flags ||| LR_SHARED
          inst := HINSTANCE.sysDefault },
        some (PCSTR.ofNat id)) ∧
    (b.set_name (ResourceName.WinOIC id)).name_as_pcstr fs =
      ({ b with
          name := ResourceName.WinOIC id
          resource_type := IMAGE_ICON
          flags := b.flags ||| LR_SHARED
          inst := HINSTANCE.sysDefault },
        some (PCSTR.ofNat id)) ∧
    (b.set_name (ResourceName.WinIDI id)).name_as_pcstr fs =
      ({ b with
          name := ResourceName.WinIDI id
          resource_type := IMAGE_ICON
          flags := b.flags ||| LR_SHARED
          inst := HINSTANCE.sysDefault },
        some (PCSTR.ofNat id)) ∧
    (b.set_name (ResourceName.WinIDC id)).name_as_pcstr fs =
      ({ b with
          name := ResourceName.WinIDC id
          resource_type := IMAGE_CURSOR
          flags := b.flags ||| LR_SHARED
          inst := HINSTANCE.sysDefault },
        some (PCSTR.ofNat id)) :=
  ⟨rfl, rfl, rfl, rfl⟩

/-- C10: for a builder whose name is `WinIDI id` or `WinOIC id`,
resolution always returns an identifier, and `load_icon` therefore
always calls the platform primitive with that non-null identifier, so
the null-identifier fallback is unreachable on the accepted
variants. -/
theorem C10_icon_resolution_total (fs : String → Bool)
    (oracle : PlatformCall → Option Nat) (b : ResourceBuilder) (id : Nat)
    (h : b.name = ResourceName.WinIDI id ∨ b.name = ResourceName.WinOIC id) :
    (b.name_as_pcstr fs).2 = some (PCSTR.ofNat id) ∧
    (b.load_icon fs oracle).2.2 =
      [PlatformCall.loadIconA HINSTANCE.sysDefault (PCSTR.ofNat id)] := by
  rcases h with h | h <;>
  · refine ⟨by simp [ResourceBuilder.name_as_pcstr, h], ?_⟩
    simp only [ResourceBuilder.load_icon, ResourceBuilder.name_as_pcstr, h]
    split <;> rfl

theorem C10_icon_resolution_total_witness :
    (((ResourceBuilder.new (Logger.new [] 1)).set_name
        (ResourceName.WinIDI 5)).name_as_pcstr (fun _ => false)).2 =
      some (PCSTR.ofNat 5) ∧
    (((ResourceBuilder.new (Logger.new [] 1)).set_name
        (ResourceName.WinIDI 5)).load_icon (fun _ => false) (fun _ => none)).2.2 =
      [PlatformCall.loadIconA HINSTANCE.sysDefault (PCSTR.ofNat 5)] :=
  C10_icon_resolution_total (fun _ => false) (fun _ => none)
    ((ResourceBuilder.new (Logger.new [] 1)).set_name (ResourceName.WinIDI 5)) 5
    (Or.inl rfl)


/-! ## State-persistence infrastructure -/

theorem lor_self_lor (x y : Nat) : x ||| (x ||| y) = x ||| y := by
  rw [← Nat.or_assoc, Nat.or_self]

theorem Logger.wlogln_threshold_mono {l : Logger} {x : Nat} (m : LogMsg)
    (h : l.threshold = x) : (l.wlogln m).threshold = x := by
  rw [Logger.wlogln_threshold]
  exact h

theorem Logger.elogln_threshold_mono {l : Logger} {x : Nat} (m : LogMsg)
    (h : l.threshold = x) : (l.elogln m).threshold = x := by
  rw [Logger.elogln_threshold]
  exact h

theorem Logger.wlogln_ext_mono {l0 l : Logger} (m : LogMsg)
    (h : ∃ t, l.output = l0.output ++ t) :
    ∃ t, (l.wlogln m).output = l0.output ++ t := by
  obtain ⟨t1, e1⟩ := h
  obtain ⟨t2, e2⟩ := Logger.wlogln_output_ext l m
  exact ⟨t1 ++ t2, by rw [e2, e1, List.append_assoc]⟩

theorem Logger.elogln_ext_mono {l0 l : Logger} (m : LogMsg)
    (h : ∃ t, l.output = l0.output ++ t) :
    ∃ t, (l.elogln m).output = l0.output ++ t := by
  obtain ⟨t1, e1⟩ := h
  obtain ⟨t2, e2⟩ := Logger.elogln_output_ext l m
  exact ⟨t1 ++ t2, by rw [e2, e1, List.append_assoc]⟩

/-- `b1` is `b0` with possibly a new name-resolution outcome but with
the accumulated configuration intact: same dimensions, same resource
name, same logger threshold, no flag cleared, and a log that only grew. -/
def persists (b0 b1 : ResourceBuilder) : Prop :=
  b1.dimensions = b0.dimensions ∧ b1.name = b0.name ∧
  b1.logger.threshold = b0.logger.threshold ∧
  b0.flags ||| b1.flags = b1.flags ∧
  ∃ t, b1.logger.output = b0.logger.output ++ t

theorem persists_refl (b : ResourceBuilder) : persists b b :=
  ⟨rfl, rfl, rfl, Nat.or_self _, ⟨[], by simp⟩⟩

theorem persists_trans {b0 b1 b2 : ResourceBuilder}
    (h1 : persists b0 b1) (h2 : persists b1 b2) : persists b0 b2 := by
  obtain ⟨d1, n1, t1, f1, o1, e1⟩ := h1
  obtain ⟨d2, n2, t2, f2, o2, e2⟩ := h2
  refine ⟨d2.trans d1, n2.trans n1, t2.trans t1, lor_absorb_trans f1 f2,
    o1 ++ o2, ?_⟩
  rw [e2, e1, List.append_assoc]

theorem persists_logupdate_elogln (b : ResourceBuilder) (m : LogMsg) :
    persists b { b with logger := b.logger.elogln m } :=
  ⟨rfl, rfl, Logger.elogln_threshold _ _, Nat.or_self _, Logger.elogln_output_ext _ _⟩

theorem preload_persists (b : ResourceBuilder) : persists b b.preload := by
  unfold ResourceBuilder.preload
  split
  · exact ⟨rfl, rfl, rfl, lor_self_lor _ _, ⟨[], by simp⟩⟩
  · exact persists_refl b

theorem preload_name (b : ResourceBuilder) : b.preload.name = b.name := by
  unfold ResourceBuilder.preload
  split <;> rfl

theorem nap_persists (b : ResourceBuilder) (fs : String → Bool) :
    persists b (b.name_as_pcstr fs).1 := by
  rcases hb : b.name with file | id | id | id | id | id | name <;>
    simp only [ResourceBuilder.name_as_pcstr, hb] <;>
    repeat' split
  all_goals refine ⟨rfl, hb ▸ rfl, ?_, ?_, ?_⟩
  all_goals first
    | exact Logger.elogln_threshold _ _
    | exact Nat.or_self _
    | exact lor_self_lor _ _
    | exact Logger.elogln_output_ext _ _
    | exact ⟨[], by simp⟩
    | rfl

theorem checkDimension_persists (b : ResourceBuilder) (d : Int) (n : DimName) :
    persists b (checkDimension b d n) := by
  unfold checkDimension
  split_ifs <;>
    first
    | exact persists_refl b
    | exact ⟨rfl, rfl, Logger.wlogln_threshold _ _, Nat.or_self _,
        Logger.wlogln_output_ext _ _⟩

theorem checkDib_persists (b : ResourceBuilder) : persists b (checkDib b) := by
  unfold checkDib
  split_ifs <;>
    first
    | exact persists_refl b
    | exact ⟨rfl, rfl, Logger.wlogln_threshold _ _, Nat.or_self _,
        Logger.wlogln_output_ext _ _⟩

theorem checkColor_persists (b : ResourceBuilder) : persists b (checkColor b) := by
  unfold checkColor
  split_ifs <;>
    first
    | exact persists_refl b
    | exact ⟨rfl, rfl, Logger.wlogln_threshold _ _, Nat.or_self _,
        Logger.wlogln_output_ext _ _⟩

theorem validator_persists (b : ResourceBuilder) : persists b b.validator := by
  unfold ResourceBuilder.validator
  exact persists_trans (checkDimension_persists b _ _)
    (persists_trans (checkDimension_persists _ _ _)
      (persists_trans (checkDib_persists _) (checkColor_persists _)))

theorem checkDimension_config (b : ResourceBuilder) (d : Int) (n : DimName) :
    (checkDimension b d n).flags = b.flags ∧
    (checkDimension b d n).resource_type = b.resource_type ∧
    (checkDimension b d n).inst = b.inst ∧
    (checkDimension b d n).dimensions = b.dimensions := by
  unfold checkDimension
  split_ifs <;> exact ⟨rfl, rfl, rfl, rfl⟩

theorem checkDib_config (b : ResourceBuilder) :
    (checkDib b).flags = b.flags ∧ (checkDib b).resource_type = b.resource_type ∧
    (checkDib b).inst = b.inst ∧ (checkDib b).dimensions = b.dimensions := by
  unfold checkDib
  split_ifs <;> exact ⟨rfl, rfl, rfl, rfl⟩

theorem checkColor_config (b : ResourceBuilder) :
    (checkColor b).flags = b.flags ∧ (checkColor b).resource_type = b.resource_type ∧
    (checkColor b).inst = b.inst ∧ (checkColor b).dimensions = b.dimensions := by
  unfold checkColor
  split_ifs <;> exact ⟨rfl, rfl, rfl, rfl⟩

theorem validator_config (b : ResourceBuilder) :
    (b.validator).flags = b.flags ∧ (b.validator).resource_type = b.resource_type ∧
    (b.validator).inst = b.inst := by
  unfold ResourceBuilder.validator
  obtain ⟨f1, r1, i1, d1⟩ := checkDimension_config b b.dimensions.1 DimName.width
  obtain ⟨f2, r2, i2, d2⟩ :=
    checkDimension_config (checkDimension b b.dimensions.1 DimName.width)
      b.dimensions.2 DimName.height
  obtain ⟨f3, r3, i3, d3⟩ :=
    checkDib_config (checkDimension (checkDimension b b.dimensions.1 DimName.width)
      b.dimensions.2 DimName.height)
  obtain ⟨f4, r4, i4, d4⟩ :=
    checkColor_config (checkDib (checkDimension
      (checkDimension b b.dimensions.1 DimName.width) b.dimensions.2 DimName.height))
  exact ⟨by rw [f4, f3, f2, f1], by rw [r4, r3, r2, r1], by rw [i4, i3, i2, i1]⟩

theorem load_persists (b : ResourceBuilder) (fs : String → Bool)
    (oracle : PlatformCall → Option Nat) : persists b (b.load fs oracle).1 := by
  have hpre := preload_persists b
  have hnap := nap_persists b.preload fs
  rcases hr : ((b.preload).name_as_pcstr fs).2 with _ | name
  · simp only [ResourceBuilder.load, hr]
    exact persists_trans hpre hnap
  · simp only [ResourceBuilder.load, hr]
    have hval := validator_persists ((b.preload).name_as_pcstr fs).1
    rcases ho : oracle (PlatformCall.loadImageA
        (((b.preload).name_as_pcstr fs).1.validator).inst name
        (((b.preload).name_as_pcstr fs).1.validator).resource_type
        (((b.preload).name_as_pcstr fs).1.validator).dimensions.1
        (((b.preload).name_as_pcstr fs).1.validator).dimensions.2
        (((b.preload).name_as_pcstr fs).1.validator).flags) with _ | handle
    · simp only [ho]
      exact persists_trans hpre (persists_trans hnap (persists_trans hval
        (persists_logupdate_elogln _ _)))
    · simp only [ho]
      exact persists_trans hpre (persists_trans hnap hval)

theorem load_icon_persists (b : ResourceBuilder) (fs : String → Bool)
    (oracle : PlatformCall → Option Nat) : persists b (b.load_icon fs oracle).1 := by
  simp only [ResourceBuilder.load_icon]
  split
  all_goals first
    | exact persists_logupdate_elogln _ _
    | (split <;>
        first
        | exact nap_persists b fs
        | exact persists_trans (nap_persists b fs) (persists_logupdate_elogln _ _))

theorem load_cursor_persists (b : ResourceBuilder) (fs : String → Bool)
    (oracle : PlatformCall → Option Nat) : persists b (b.load_cursor fs oracle).1 := by
  simp only [ResourceBuilder.load_cursor]
  split
  all_goals first
    | exact persists_logupdate_elogln _ _
    | (split <;>
        first
        | exact nap_persists b fs
        | exact persists_trans (nap_persists b fs) (persists_logupdate_elogln _ _))


/-- C8: the builder is reusable after any terminal call: `set_name`
only replaces the resource name, and no terminal operation resets
dimensions, the name, the logger threshold, or any accumulated flag
(flags forced during a resolution persist; nothing is cleared), so a
later terminal call operates on the accumulated state. -/
theorem C8_builder_reusable (fs : String → Bool) (oracle : PlatformCall → Option Nat)
    (b : ResourceBuilder) (n : ResourceName) :
    b.set_name n = { b with name := n } ∧
    persists b (b.load fs oracle).1 ∧
    persists b (b.load_icon fs oracle).1 ∧
    persists b (b.load_cursor fs oracle).1 :=
  ⟨rfl, load_persists b fs oracle, load_icon_persists b fs oracle,
    load_cursor_persists b fs oracle⟩

/-- C5: `load_icon` on any name variant other than `WinIDI`/`WinOIC`
only logs the wrong-variant error and returns no result and makes no
platform call, leaving every other builder field untouched; the result
does not depend on the filesystem or the loader, so the resolver never
runs.  `load_cursor` behaves symmetrically for variants other than
`WinIDC`/`WinOCR`. -/
theorem C5_wrong_variant (fs : String → Bool) (oracle : PlatformCall → Option Nat)
    (b : ResourceBuilder) :
    (isIconVariantName b.name = false →
      b.load_icon fs oracle =
        ({ b with logger := b.logger.elogln LogMsg.wrongVariantIcon }, none, [])) ∧
    (isCursorVariantName b.name = false →
      b.load_cursor fs oracle =
        ({ b with logger := b.logger.elogln LogMsg.wrongVariantCursor }, none, [])) := by
  constructor <;> intro h <;>
    rcases hb : b.name with file | id | id | id | id | id | name <;>
    rw [hb] at h <;>
    simp_all [ResourceBuilder.load_icon, ResourceBuilder.load_cursor,
      isIconVariantName, isCursorVariantName, hb]

theorem C5_wrong_variant_witness :
    ((ResourceBuilder.new (Logger.new [] 1)).set_name
        (ResourceName.Name "TestBMP\x00")).load_icon (fun _ => false) (fun _ => some 7) =
      ({ (ResourceBuilder.new (Logger.new [] 1)).set_name
          (ResourceName.Name "TestBMP\x00") with
          logger := ((ResourceBuilder.new (Logger.new [] 1)).set_name
            (ResourceName.Name "TestBMP\x00")).logger.elogln LogMsg.wrongVariantIcon },
        none, []) ∧
    ((ResourceBuilder.new (Logger.new [] 1)).set_name
        (ResourceName.Name "TestBMP\x00")).load_cursor (fun _ => false) (fun _ => some 7) =
      ({ (ResourceBuilder.new (Logger.new [] 1)).set_name
          (ResourceName.Name "TestBMP\x00") with
          logger := ((ResourceBuilder.new (Logger.new [] 1)).set_name
            (ResourceName.Name "TestBMP\x00")).logger.elogln LogMsg.wrongVariantCursor },
        none, []) := by
  have h := C5_wrong_variant (fun _ => false) (fun _ => some 7)
    ((ResourceBuilder.new (Logger.new [] 1)).set_name (ResourceName.Name "TestBMP\x00"))
  exact ⟨h.1 (by decide), h.2 (by decide)⟩

/-- C3 counterexample: the claim says every terminal operation skips
the platform loader and returns no result whenever resolution fails,
but `load_cursor` on the reserved system cursor `WinOCR 32640` has a
failing resolution and still invokes `LoadCursorA` with the null
identifier; with a loader that accepts that call it even returns a
result. -/
theorem C3_short_circuit_counterexample :
    ((((ResourceBuilder.new (Logger.new [] 1)).set_name
        (ResourceName.WinOCR 32640)).name_as_pcstr (fun _ => false)).2 = none) ∧
    (((ResourceBuilder.new (Logger.new [] 1)).set_name
        (ResourceName.WinOCR 32640)).load_cursor (fun _ => false) (fun _ => some 7)).2.1 =
      some 7 ∧
    (((ResourceBuilder.new (Logger.new [] 1)).set_name
        (ResourceName.WinOCR 32640)).load_cursor (fun _ => false) (fun _ => some 7)).2.2 =
      [PlatformCall.loadCursorA HINSTANCE.sysDefault PCSTR.null] :=
  ⟨rfl, rfl, rfl⟩

/-- C3 amended: `load` short-circuits on a failed resolution — the
validator is not run (the returned builder is exactly the one left by
resolution), no platform call is made, and no result is returned.
`load_icon` and `load_cursor` never run the validator; on their
accepted variants a failed resolution is tolerated by substituting the
null identifier: the platform primitive is still invoked with the null
identifier, and the outcome is decided by the loader — its answer is
returned as the result, or one load-failed error is logged (shown for
the reserved `WinOCR` ids, the only accepted variants whose resolution
can fail). -/
theorem C3_short_circuit_amended (fs : String → Bool)
    (oracle : PlatformCall → Option Nat) (b : ResourceBuilder)
    (h : ((b.preload).name_as_pcstr fs).2 = none) :
    b.load fs oracle = (((b.preload).name_as_pcstr fs).1, none, []) ∧
    (∀ id, b.name = ResourceName.WinOCR id → reservedOCR id →
      (b.name_as_pcstr fs).2 = none ∧
      (b.load_cursor fs oracle).2.2 =
        [PlatformCall.loadCursorA HINSTANCE.sysDefault PCSTR.null] ∧
      (∀ handle, oracle (PlatformCall.loadCursorA HINSTANCE.sysDefault PCSTR.null) =
          some handle →
        b.load_cursor fs oracle = ((b.name_as_pcstr fs).1, some handle,
          [PlatformCall.loadCursorA HINSTANCE.sysDefault PCSTR.null])) ∧
      (oracle (PlatformCall.loadCursorA HINSTANCE.sysDefault PCSTR.null) = none →
        b.load_cursor fs oracle =
          ({ (b.name_as_pcstr fs).1 with
              logger := (b.name_as_pcstr fs).1.logger.elogln LogMsg.loadFailedCursor },
            none, [PlatformCall.loadCursorA HINSTANCE.sysDefault PCSTR.null]))) := by
  constructor
  · simp only [ResourceBuilder.load, h]
  · intro id hb hres
    have hres2 : id = 32641 ∨ id = 32647 ∨ id = 32640 := hres
    refine ⟨?_, ?_, fun handle ho => ?_, fun ho => ?_⟩
    · simp only [ResourceBuilder.name_as_pcstr, hb, if_pos hres2]
    · simp only [ResourceBuilder.load_cursor, ResourceBuilder.name_as_pcstr, hb,
        if_pos hres2]
      split <;> rfl
    · simp only [ResourceBuilder.load_cursor, ResourceBuilder.name_as_pcstr, hb,
        if_pos hres2, Option.getD_none, ho]
    · simp only [ResourceBuilder.load_cursor, ResourceBuilder.name_as_pcstr, hb,
        if_pos hres2, Option.getD_none, ho]

theorem C3_short_circuit_amended_witness :
    ((ResourceBuilder.new (Logger.new [] 1)).set_name
        (ResourceName.WinOCR 32640)).load (fun _ => false) (fun _ => some 7) =
      (((((ResourceBuilder.new (Logger.new [] 1)).set_name
        (ResourceName.WinOCR 32640)).preload).name_as_pcstr (fun _ => false)).1,
        none, []) ∧
    ((((ResourceBuilder.new (Logger.new [] 1)).set_name
        (ResourceName.WinOCR 32640)).name_as_pcstr (fun _ => false)).2 = none) ∧
    ((ResourceBuilder.new (Logger.new [] 1)).set_name
        (ResourceName.WinOCR 32640)).load_cursor (fun _ => false) (fun _ => some 7) =
      (((((ResourceBuilder.new (Logger.new [] 1)).set_name
          (ResourceName.WinOCR 32640)).name_as_pcstr (fun _ => false)).1, some 7,
        [PlatformCall.loadCursorA HINSTANCE.sysDefault PCSTR.null])) := by
  have h := C3_short_circuit_amended (fun _ => false) (fun _ => some 7)
    ((ResourceBuilder.new (Logger.new [] 1)).set_name (ResourceName.WinOCR 32640))
    (by decide)
  have h2 := h.2 32640 rfl (by decide)
  exact ⟨h.1, h2.1, h2.2.2.1 7 rfl⟩


/-- C1 counterexample: the claim requires the text to contain exactly
one recognized substring among BMP/CUR/ICO, but a `Name` whose
uppercased text contains two of them (here both BMP and CUR) still
resolves successfully, with the first match in priority order deciding
the kind. -/
theorem C1_name_resolution_counterexample :
    containsSub (toUppercase "ABMPCUR\x00") "BMP" = true ∧
    containsSub (toUppercase "ABMPCUR\x00") "CUR" = true ∧
    (((ResourceBuilder.new (Logger.new [] 1)).set_name
        (ResourceName.Name "ABMPCUR\x00")).name_as_pcstr (fun _ => false)).2 =
      some (PCSTR.ofString "ABMPCUR\x00") ∧
    (((ResourceBuilder.new (Logger.new [] 1)).set_name
        (ResourceName.Name "ABMPCUR\x00")).name_as_pcstr (fun _ => false)).1.resource_type =
      IMAGE_BITMAP := by
  refine ⟨by decide, by decide, rfl, rfl⟩

/-- C1 amended: for every `Name text` with non-empty text ending in the
terminator, the uppercased text is checked against BMP, CUR, ICO in
that fixed priority order; the first matching substring decides the
kind (Bitmap, Cursor, Icon) and resolution succeeds with the text
itself as identifier, provided at least one substring matches; if none
match, resolution fails with the name-is-invalid error and no
identifier. -/
theorem C1_name_resolution_amended (fs : String → Bool) (b : ResourceBuilder)
    (text : String) (hne : text.isEmpty = false) (hterm : endsWithNul text = true) :
    (containsSub (toUppercase text) "BMP" = true →
      (b.set_name (ResourceName.Name text)).name_as_pcstr fs =
        ({ b with name := ResourceName.Name text, resource_type := IMAGE_BITMAP },
          some (PCSTR.ofString text))) ∧
    (containsSub (toUppercase text) "BMP" = false → containsSub (toUppercase text) "CUR" = true →
      (b.set_name (ResourceName.Name text)).name_as_pcstr fs =
        ({ b with name := ResourceName.Name text, resource_type := IMAGE_CURSOR },
          some (PCSTR.ofString text))) ∧
    (containsSub (toUppercase text) "BMP" = false → containsSub (toUppercase text) "CUR" = false →
      containsSub (toUppercase text) "ICO" = true →
      (b.set_name (ResourceName.Name text)).name_as_pcstr fs =
        ({ b with name := ResourceName.Name text, resource_type := IMAGE_ICON },
          some (PCSTR.ofString text))) ∧
    (containsSub (toUppercase text) "BMP" = false → containsSub (toUppercase text) "CUR" = false →
      containsSub (toUppercase text) "ICO" = false →
      (b.set_name (ResourceName.Name text)).name_as_pcstr fs =
        ({ b with
            name := ResourceName.Name text
            logger := b.logger.elogln (LogMsg.nameInvalid text) }, none)) := by
  refine ⟨fun h1 => ?_, fun h1 h2 => ?_, fun h1 h2 h3 => ?_, fun h1 h2 h3 => ?_⟩
  · simp [ResourceBuilder.name_as_pcstr, ResourceBuilder.set_name, hne, hterm, h1]
  · simp [ResourceBuilder.name_as_pcstr, ResourceBuilder.set_name, hne, hterm, h1, h2]
  · simp [ResourceBuilder.name_as_pcstr, ResourceBuilder.set_name, hne, hterm, h1, h2, h3]
  · simp [ResourceBuilder.name_as_pcstr, ResourceBuilder.set_name, hne, hterm, h1, h2, h3]

theorem C1_name_resolution_amended_witness :
    ((ResourceBuilder.new (Logger.new [] 1)).set_name
        (ResourceName.Name "XICO\x00")).name_as_pcstr (fun _ => false) =
      ({ (ResourceBuilder.new (Logger.new [] 1)).set_name
          (ResourceName.Name "XICO\x00") with
          name := ResourceName.Name "XICO\x00"
          resource_type := IMAGE_ICON },
        some (PCSTR.ofString "XICO\x00")) := by
  have h := (C1_name_resolution_amended (fun _ => false)
    ((ResourceBuilder.new (Logger.new [] 1)).set_name (ResourceName.Name "XICO\x00"))
    "XICO\x00" (by decide) (by decide)).2.2.1 (by decide) (by decide) (by decide)
  exact h


/-- C2: resolving `File file` returns an identifier exactly when the
text is non-empty, ends with the terminator, the stripped path has an
extension among cur/ico/bmp, the path has no replacement character, and
the file exists; on success the kind comes from the extension and the
identifier is the original text with no diagnostic; each failing
condition — checked in the order empty, terminator, extension,
encoding, existence — yields no identifier and exactly one error whose
message carries the reason (including the invalid extension text or the
nonexistent path). -/
theorem C2_file_resolution (fs : String → Bool) (b : ResourceBuilder) (file : String)
    (h1 : 1 ≤ b.logger.threshold) :
    ((((b.set_name (ResourceName.File file)).name_as_pcstr fs).2 ≠ none) ↔
      (file.isEmpty = false ∧ endsWithNul file = true ∧
        (∃ ext ty, pathExtension (trimEndNul file) = some ext ∧ extKind ext = some ty) ∧
        containsReplacement (trimEndNul file) = false ∧ fs (trimEndNul file) = true)) ∧
    (∀ ext ty, file.isEmpty = false → endsWithNul file = true →
      pathExtension (trimEndNul file) = some ext → extKind ext = some ty →
      containsReplacement (trimEndNul file) = false → fs (trimEndNul file) = true →
      ((b.set_name (ResourceName.File file)).name_as_pcstr fs).2 =
        some (PCSTR.ofString file) ∧
      ((b.set_name (ResourceName.File file)).name_as_pcstr fs).1.resource_type = ty ∧
      ((b.set_name (ResourceName.File file)).name_as_pcstr fs).1.logger.output =
        b.logger.output) ∧
    (file.isEmpty = true →
      ((b.set_name (ResourceName.File file)).name_as_pcstr fs).2 = none ∧
      ((b.set_name (ResourceName.File file)).name_as_pcstr fs).1.logger.output =
        b.logger.output ++ [(Level.error, LogMsg.filenameEmpty)]) ∧
    (file.isEmpty = false → endsWithNul file = false →
      ((b.set_name (ResourceName.File file)).name_as_pcstr fs).2 = none ∧
      ((b.set_name (ResourceName.File file)).name_as_pcstr fs).1.logger.output =
        b.logger.output ++ [(Level.error, LogMsg.filenameNeedsTerminator file)]) ∧
    (file.isEmpty = false → endsWithNul file = true →
      pathExtension (trimEndNul file) = none →
      ((b.set_name (ResourceName.File file)).name_as_pcstr fs).2 = none ∧
      ((b.set_name (ResourceName.File file)).name_as_pcstr fs).1.logger.output =
        b.logger.output ++ [(Level.error, LogMsg.noFileExtension)]) ∧
    (∀ ext, file.isEmpty = false → endsWithNul file = true →
      pathExtension (trimEndNul file) = some ext → extKind ext = none →
      ((b.set_name (ResourceName.File file)).name_as_pcstr fs).2 = none ∧
      ((b.set_name (ResourceName.File file)).name_as_pcstr fs).1.logger.output =
        b.logger.output ++ [(Level.error, LogMsg.fileExtensionNotValid ext)]) ∧
    (∀ ext ty, file.isEmpty = false → endsWithNul file = true →
      pathExtension (trimEndNul file) = some ext → extKind ext = some ty →
      containsReplacement (trimEndNul file) = true →
      ((b.set_name (ResourceName.File file)).name_as_pcstr fs).2 = none ∧
      ((b.set_name (ResourceName.File file)).name_as_pcstr fs).1.logger.output =
        b.logger.output ++ [(Level.error, LogMsg.fileInvalidUnicode (trimEndNul file))]) ∧
    (∀ ext ty, file.isEmpty = false → endsWithNul file = true →
      pathExtension (trimEndNul file) = some ext → extKind ext = some ty →
      containsReplacement (trimEndNul file) = false → fs (trimEndNul file) = false →
      ((b.set_name (ResourceName.File file)).name_as_pcstr fs).2 = none ∧
      ((b.set_name (ResourceName.File file)).name_as_pcstr fs).1.logger.output =
        b.logger.output ++ [(Level.error, LogMsg.fileDoesNotExist (trimEndNul file))]) := by
  refine ⟨⟨fun hne => ?_, fun hc => ?_⟩, fun ext ty he ht hpe hk hrep hfs => ?_,
    fun he => ?_, fun he ht => ?_, fun he ht hpe => ?_, fun ext he ht hpe hk => ?_,
    fun ext ty he ht hpe hk hrep => ?_, fun ext ty he ht hpe hk hrep hfs => ?_⟩
  · by_cases he : file.isEmpty = true
    · exact absurd (by simp [ResourceBuilder.name_as_pcstr, ResourceBuilder.set_name,
        he]) hne
    rw [Bool.not_eq_true] at he
    by_cases ht : endsWithNul file = true
    rotate_left
    · rw [Bool.not_eq_true] at ht
      exact absurd (by simp [ResourceBuilder.name_as_pcstr, ResourceBuilder.set_name,
        he, ht]) hne
    rcases hpe : pathExtension (trimEndNul file) with _ | ext
    · exact absurd (by simp [ResourceBuilder.name_as_pcstr, ResourceBuilder.set_name,
        he, ht, hpe]) hne
    rcases hk : extKind ext with _ | ty
    · exact absurd (by simp [ResourceBuilder.name_as_pcstr, ResourceBuilder.set_name,
        he, ht, hpe, hk]) hne
    by_cases hrep : containsReplacement (trimEndNul file) = true
    · exact absurd (by simp [ResourceBuilder.name_as_pcstr, ResourceBuilder.set_name,
        he, ht, hpe, hk, hrep]) hne
    rw [Bool.not_eq_true] at hrep
    by_cases hfs : fs (trimEndNul file) = true
    rotate_left
    · rw [Bool.not_eq_true] at hfs
      exact absurd (by simp [ResourceBuilder.name_as_pcstr, ResourceBuilder.set_name,
        he, ht, hpe, hk, hrep, hfs]) hne
    exact ⟨he, ht, ⟨ext, ty, rfl, hk⟩, hrep, hfs⟩
  · obtain ⟨he, ht, ⟨ext, ty, hpe, hk⟩, hrep, hfs⟩ := hc
    simp [ResourceBuilder.name_as_pcstr, ResourceBuilder.set_name,
      he, ht, hpe, hk, hrep, hfs]
  · simp [ResourceBuilder.name_as_pcstr, ResourceBuilder.set_name,
      he, ht, hpe, hk, hrep, hfs]
  · simp [ResourceBuilder.name_as_pcstr, ResourceBuilder.set_name, he,
      Logger.elogln_output_of_le _ _ h1]
  · simp [ResourceBuilder.name_as_pcstr, ResourceBuilder.set_name, he, ht,
      Logger.elogln_output_of_le _ _ h1]
  · simp [ResourceBuilder.name_as_pcstr, ResourceBuilder.set_name, he, ht, hpe,
      Logger.elogln_output_of_le _ _ h1]
  · simp [ResourceBuilder.name_as_pcstr, ResourceBuilder.set_name, he, ht, hpe, hk,
      Logger.elogln_output_of_le _ _ h1]
  · simp [ResourceBuilder.name_as_pcstr, ResourceBuilder.set_name, he, ht, hpe, hk,
      hrep, Logger.elogln_output_of_le _ _ h1]
  · simp [ResourceBuilder.name_as_pcstr, ResourceBuilder.set_name, he, ht, hpe, hk,
      hrep, hfs, Logger.elogln_output_of_le _ _ h1]

theorem C2_file_resolution_witness :
    (((ResourceBuilder.new (Logger.new [] 1)).set_name
        (ResourceName.File "ok.bmp\x00")).name_as_pcstr
          (fun p => p == "ok.bmp")).2 = some (PCSTR.ofString "ok.bmp\x00") ∧
    (((ResourceBuilder.new (Logger.new [] 1)).set_name
        (ResourceName.File "ok.bmp\x00")).name_as_pcstr
          (fun p => p == "ok.bmp")).1.resource_type = IMAGE_BITMAP ∧
    (((ResourceBuilder.new (Logger.new [] 1)).set_name
        (ResourceName.File "foo.txt\x00")).name_as_pcstr
          (fun p => p == "ok.bmp")).1.logger.output =
      [(Level.error, LogMsg.fileExtensionNotValid "txt")] := by
  have hok := (C2_file_resolution (fun p => p == "ok.bmp")
    (ResourceBuilder.new (Logger.new [] 1)) "ok.bmp\x00" (by decide)).2.1
    "bmp" IMAGE_BITMAP (by decide) (by decide) (by decide) (by decide) (by decide)
    (by decide)
  have hbad := ((C2_file_resolution (fun p => p == "ok.bmp")
    (ResourceBuilder.new (Logger.new [] 1)) "foo.txt\x00" (by decide)).2.2.2.2.2.1
    "txt" (by decide) (by decide) (by decide) (by decide)).2
  exact ⟨hok.1, hok.2.1, by simpa using hbad⟩


theorem is_flag_congr {b0 b1 : ResourceBuilder} (h : b1.flags = b0.flags)
    (F : Nat) : b1.is_flag F = b0.is_flag F := by
  unfold ResourceBuilder.is_flag
  rw [h]

theorem checkDimension_output (b : ResourceBuilder) (d : Int) (n : DimName)
    (h2 : 2 ≤ b.logger.threshold) :
    (checkDimension b d n).logger.output = b.logger.output ++
      (if d = 0 then
        [(Level.warning,
          if b.is_flag LR_DEFAULTSIZE then LogMsg.defaultSystemDim n
          else LogMsg.originalImageDim n)]
      else []) := by
  unfold checkDimension
  split_ifs <;> simp_all [Logger.wlogln_output_of_le]

theorem checkDib_output (b : ResourceBuilder) (h2 : 2 ≤ b.logger.threshold) :
    (checkDib b).logger.output = b.logger.output ++
      (if b.is_flag LR_CREATEDIBSECTION then
        (if b.resource_type = IMAGE_CURSOR then
          [(Level.warning, LogMsg.dibNoOp IMAGE_CURSOR)]
        else if b.resource_type = IMAGE_ICON then
          [(Level.warning, LogMsg.dibNoOp IMAGE_ICON)]
        else [])
      else []) := by
  unfold checkDib
  split_ifs <;> simp_all [Logger.wlogln_output_of_le]

theorem checkColor_output (b : ResourceBuilder) (h2 : 2 ≤ b.logger.threshold) :
    (checkColor b).logger.output = b.logger.output ++
      (if b.is_flag LR_MONOCHROME &&
          (b.is_flag LR_LOADMAP3DCOLORS || b.is_flag LR_VGACOLOR) then
        [(Level.warning, LogMsg.monoNoOp)]
      else []) := by
  unfold checkColor
  split_ifs <;> simp_all [Logger.wlogln_output_of_le]

/-- C6: when the validator runs with a logger that admits warnings,
the log grows by exactly: one warning per zero dimension — width first,
then height — whose message says the default system dimension is used
when `LR_DEFAULTSIZE` is set and the original image dimension
otherwise, a nonzero dimension contributing nothing; then the DIB/kind
warning; then the monochrome color warning. -/
theorem C6_validator_warnings (b : ResourceBuilder) (h2 : 2 ≤ b.logger.threshold) :
    (b.validator).logger.output = b.logger.output ++
      ((if b.dimensions.1 = 0 then
        [(Level.warning,
          if b.is_flag LR_DEFAULTSIZE then LogMsg.defaultSystemDim DimName.width
          else LogMsg.originalImageDim DimName.width)]
      else []) ++
      ((if b.dimensions.2 = 0 then
        [(Level.warning,
          if b.is_flag LR_DEFAULTSIZE then LogMsg.defaultSystemDim DimName.height
          else LogMsg.originalImageDim DimName.height)]
      else []) ++
      ((if b.is_flag LR_CREATEDIBSECTION then
        (if b.resource_type = IMAGE_CURSOR then
          [(Level.warning, LogMsg.dibNoOp IMAGE_CURSOR)]
        else if b.resource_type = IMAGE_ICON then
          [(Level.warning, LogMsg.dibNoOp IMAGE_ICON)]
        else [])
      else []) ++
      (if b.is_flag LR_MONOCHROME &&
          (b.is_flag LR_LOADMAP3DCOLORS || b.is_flag LR_VGACOLOR) then
        [(Level.warning, LogMsg.monoNoOp)]
      else [])))) := by
  have hfZ := (checkDimension_config b b.dimensions.1 DimName.width).1
  have htZ := (checkDimension_persists b b.dimensions.1 DimName.width).2.2.1
  have hfY :=
    (checkDimension_config (checkDimension b b.dimensions.1 DimName.width)
      b.dimensions.2 DimName.height).1
  have hrtY :=
    (checkDimension_config (checkDimension b b.dimensions.1 DimName.width)
      b.dimensions.2 DimName.height).2.1
  have htY :=
    (checkDimension_persists (checkDimension b b.dimensions.1 DimName.width)
      b.dimensions.2 DimName.height).2.2.1
  have hfX :=
    (checkDib_config (checkDimension (checkDimension b b.dimensions.1 DimName.width)
      b.dimensions.2 DimName.height)).1
  have htX :=
    (checkDib_persists (checkDimension (checkDimension b b.dimensions.1 DimName.width)
      b.dimensions.2 DimName.height)).2.2.1
  have hrtZ := (checkDimension_config b b.dimensions.1 DimName.width).2.1
  have h2Z : 2 ≤ (checkDimension b b.dimensions.1 DimName.width).logger.threshold := by
    rw [htZ]
    exact h2
  have h2Y : 2 ≤ (checkDimension (checkDimension b b.dimensions.1 DimName.width)
      b.dimensions.2 DimName.height).logger.threshold := by
    rw [htY, htZ]
    exact h2
  have h2X : 2 ≤ (checkDib (checkDimension
      (checkDimension b b.dimensions.1 DimName.width)
      b.dimensions.2 DimName.height)).logger.threshold := by
    rw [htX, htY, htZ]
    exact h2
  unfold ResourceBuilder.validator
  rw [checkColor_output _ h2X, checkDib_output _ h2Y,
    checkDimension_output _ _ _ h2Z, checkDimension_output _ _ _ h2,
    is_flag_congr hfZ, is_flag_congr (hfY.trans hfZ), hrtY.trans hrtZ,
    is_flag_congr (hfX.trans (hfY.trans hfZ)),
    is_flag_congr (hfX.trans (hfY.trans hfZ)),
    is_flag_congr (hfX.trans (hfY.trans hfZ)), List.append_assoc,
    List.append_assoc, List.append_assoc]

theorem C6_validator_warnings_witness :
    ((ResourceBuilder.new (Logger.new [] 2)).validator).logger.output =
      [(Level.warning, LogMsg.originalImageDim DimName.width),
        (Level.warning, LogMsg.originalImageDim DimName.height)] := by
  have h := C6_validator_warnings (ResourceBuilder.new (Logger.new [] 2)) (by decide)
  rw [h]
  decide

end Stellar





